import Mathlib

/-
Verification of the fastmcp-swagger gateway (src/multi_mcp.py and
src/single_mcp.py): a shallow embedding of the schema-to-endpoint
synthesis core — the type mapper, the response normalizer inside
call_tool, the parameter binding of create_dynamic_endpoint, and the
startup registration loop — together with theorems about the claims
made in the specification.

Conventions of the embedding:
- Python/JSON values are modelled by the inductive type Json; the
  Python value None is Json.null.
- json.loads is an external library call; it is modelled by a
  parameter parse : String → Option Json, where none models a raised
  json.JSONDecodeError.
- A Python object that may or may not carry a .text attribute is
  modelled by ContentItem: text = none models hasattr(_, "text")
  being false, and pyStr models the object's str() representation
  (for a Python list, str() brackets the comma-joined element
  representations).
-/

/-- JSON-compatible Python values as they flow through the gateway.
Json.null models the Python value None. -/
inductive Json where
  | null
  | bool (b : Bool)
  | num (n : Int)
  | str (s : String)
  | arr (items : List Json)
  | obj (fields : List (String × Json))

/-- Models the Python test `v is None`. -/
def Json.isNull : Json → Bool
  | Json.null => true
  | _ => false

/-- The Python scalar types produced by get_python_type. -/
inductive PyType where
  | str
  | int
  | float
  | bool
  deriving DecidableEq

/-- get_python_type (multi_mcp.py:39-42, single_mcp.py:39-42):
mapping = \x7b'string': str, 'integer': int, 'number': float, 'boolean': bool\x7d;
return mapping.get(json_type, str). The dict lookup is an equality
chain over the four keys, defaulting to str. -/
def get_python_type (json_type : String) : PyType :=
  if json_type = "string" then PyType.str
  else if json_type = "integer" then PyType.int
  else if json_type = "number" then PyType.float
  else if json_type = "boolean" then PyType.bool
  else PyType.str

/-- One element of an RPC result's content. text = none models an
object with no .text attribute; pyStr is its str() representation. -/
structure ContentItem where
  text : Option String
  pyStr : String

/-- result.content is either a Python list of content blocks or a
single non-list object (the code tests isinstance(result.content, list)). -/
inductive ContentVal where
  | list (items : List ContentItem)
  | single (item : ContentItem)

/-- Python str() of a content value: a list brackets the comma-joined
representations of its elements. -/
def contentValStr : ContentVal → String
  | ContentVal.list items => "[" ++ String.intercalate ", " (items.map ContentItem.pyStr) ++ "]"
  | ContentVal.single item => item.pyStr

/-- Python truthiness of a content value: an empty list is falsy,
any object is truthy. -/
def contentValTruthy : ContentVal → Bool
  | ContentVal.list items => !items.isEmpty
  | ContentVal.single _ => true

/-- Python truthiness of result.content (None is falsy). -/
def contentOptTruthy : Option ContentVal → Bool
  | none => false
  | some c => contentValTruthy c

/-- str(result.content) in the branch where content is truthy. -/
def contentOptStr : Option ContentVal → String
  | none => "None"
  | some c => contentValStr c

/-- The RPC result object returned by client.call_tool:
structured_content is None or a dict, data is None or a value,
content is None or a content value. -/
structure RpcResult where
  structured_content : Option (List (String × Json))
  data : Option Json
  content : Option ContentVal

/-- Python truthiness of result.structured_content: None and the
empty dict are falsy. -/
def scTruthy (r : RpcResult) : Bool :=
  match r.structured_content with
  | some fields => !fields.isEmpty
  | none => false

/-- Result shaping of multi_mcp.py call_tool (lines 62-77):
structured_content if truthy; else \x7b"result": data\x7d if data is not
None; else, for a truthy content: if it is a non-empty list whose
first element has .text, json.loads(text) with \x7b"result": text\x7d on
parse failure, otherwise \x7b"result": str(result.content)\x7d; else
\x7b"result": "Success"\x7d. -/
def multiNormalize (parse : String → Option Json) (r : RpcResult) : Json :=
  if scTruthy r then Json.obj (r.structured_content.getD [])
  else if r.data.isSome then Json.obj [("result", r.data.getD Json.null)]
  else if contentOptTruthy r.content then
    match r.content with
    | some (ContentVal.list (first :: _)) =>
      match first.text with
      | some t => (parse t).getD (Json.obj [("result", Json.str t)])
      | none => Json.obj [("result", Json.str (contentOptStr r.content))]
    | _ => Json.obj [("result", Json.str (contentOptStr r.content))]
  else Json.obj [("result", Json.str "Success")]

/-- content[0] if isinstance(content, list) else content
(single_mcp.py line 55). The list is non-empty whenever this is
reached, because an empty list is falsy; headD's default is never
used. -/
def firstOrSelf : ContentVal → ContentItem
  | ContentVal.list items => items.headD { text := none, pyStr := "" }
  | ContentVal.single item => item

/-- Result shaping of single_mcp.py call_tool (lines 50-62): same
first two branches; for a truthy content it takes content[0] when
content is a list (else content itself) and tries
json.loads(content.text): a missing .text raises AttributeError and a
bad text raises JSONDecodeError, both caught by the bare except,
which returns \x7b"result": getattr(content, "text", str(content))\x7d. -/
def singleNormalize (parse : String → Option Json) (r : RpcResult) : Json :=
  if scTruthy r then Json.obj (r.structured_content.getD [])
  else if r.data.isSome then Json.obj [("result", r.data.getD Json.null)]
  else if contentOptTruthy r.content then
    match (firstOrSelf (r.content.getD (ContentVal.list []))).text with
    | some t => (parse t).getD (Json.obj [("result", Json.str t)])
    | none => Json.obj [("result", Json.str (firstOrSelf (r.content.getD (ContentVal.list []))).pyStr)]
  else Json.obj [("result", Json.str "Success")]

/-- params = \x7bk: v for k, v in params.items() if v is not None\x7d
(multi_mcp.py:61, single_mcp.py:46). -/
def filterParams (params : List (String × Json)) : List (String × Json) :=
  params.filter (fun p => !(Json.isNull p.2))

/- ----------------------------------------------------------------
   Helper lemmas
   ---------------------------------------------------------------- -/

theorem isNull_false_iff (v : Json) : (!(Json.isNull v)) = true ↔ v ≠ Json.null := by
  cases v <;> simp [Json.isNull]

/- ----------------------------------------------------------------
   C7: the type mapper
   ---------------------------------------------------------------- -/

/-- C7: get_python_type is total and pure: "string", "integer",
"number", "boolean" map to the corresponding scalar kind and every
other input maps to the string type; it never raises. -/
theorem C7_type_mapper_total :
    get_python_type "string" = PyType.str
    ∧ get_python_type "integer" = PyType.int
    ∧ get_python_type "number" = PyType.float
    ∧ get_python_type "boolean" = PyType.bool
    ∧ ∀ json_type : String, json_type ≠ "string" → json_type ≠ "integer" →
        json_type ≠ "number" → json_type ≠ "boolean" →
        get_python_type json_type = PyType.str := by
  refine ⟨rfl, rfl, rfl, rfl, ?_⟩
  intro t h1 h2 h3 h4
  simp [get_python_type, h1, h2, h3, h4]

/-- Witness for C7 at the concrete unknown tag "object". -/
theorem C7_type_mapper_total_witness :
    get_python_type "object" = PyType.str :=
  C7_type_mapper_total.2.2.2.2 "object" (by decide) (by decide) (by decide) (by decide)

/- ----------------------------------------------------------------
   C9: only None values are dropped from the argument map
   ---------------------------------------------------------------- -/

/-- C9: the pre-invocation filter drops exactly the entries whose
value is None; explicitly supplied falsy values such as 0, false and
the empty string are retained. -/
theorem C9_only_null_dropped (params : List (String × Json)) (k : String) (v : Json) :
    ((k, v) ∈ filterParams params ↔ ((k, v) ∈ params ∧ v ≠ Json.null))
    ∧ ((k, Json.num 0) ∈ params → (k, Json.num 0) ∈ filterParams params)
    ∧ ((k, Json.bool false) ∈ params → (k, Json.bool false) ∈ filterParams params)
    ∧ ((k, Json.str "") ∈ params → (k, Json.str "") ∈ filterParams params) := by
  have base : ∀ w : Json, ((k, w) ∈ filterParams params ↔ ((k, w) ∈ params ∧ w ≠ Json.null)) := by
    intro w
    simp only [filterParams, List.mem_filter]
    exact and_congr_right (fun _ => isNull_false_iff w)
  refine ⟨base v, ?_, ?_, ?_⟩
  · intro h
    exact (base (Json.num 0)).2 ⟨h, by intro hv; cases hv⟩
  · intro h
    exact (base (Json.bool false)).2 ⟨h, by intro hv; cases hv⟩
  · intro h
    exact (base (Json.str "")).2 ⟨h, by intro hv; cases hv⟩

/-- Witness for C9 on a concrete argument map holding a None, a zero
and an empty string. -/
theorem C9_only_null_dropped_witness :
    (("b", Json.num 0) ∈ filterParams [("a", Json.null), ("b", Json.num 0), ("c", Json.str "")])
    ∧ (("c", Json.str "") ∈ filterParams [("a", Json.null), ("b", Json.num 0), ("c", Json.str "")])
    ∧ ¬ (("a", Json.null) ∈ filterParams [("a", Json.null), ("b", Json.num 0), ("c", Json.str "")]) := by
  have h1 := (C9_only_null_dropped [("a", Json.null), ("b", Json.num 0), ("c", Json.str "")] "b" Json.null).2.1
  have h2 := (C9_only_null_dropped [("a", Json.null), ("b", Json.num 0), ("c", Json.str "")] "c" Json.null).2.2.2
  have h3 := (C9_only_null_dropped [("a", Json.null), ("b", Json.num 0), ("c", Json.str "")] "a" Json.null).1
  refine ⟨h1 ?_, h2 ?_, ?_⟩
  · exact List.mem_cons_of_mem _ (List.mem_cons_self _ _)
  · exact List.mem_cons_of_mem _ (List.mem_cons_of_mem _ (List.mem_cons_self _ _))
  · intro hmem
    exact ((h3.1 hmem).2) rfl

/- ----------------------------------------------------------------
   C1: the four-shape precedence chain of the response normalizer
   ---------------------------------------------------------------- -/

/-- C1: both call_tool normalizers honor the four-shape precedence
chain: a non-empty structured-content payload is returned verbatim
(even with a data field present); otherwise a non-None data field
yields a result wrapper around data; otherwise a content list whose
first element carries text yields the JSON-parse of the text, or a
result wrapper around the raw text when parsing fails; a result with
none of these yields the Success sentinel. -/
theorem C1_normalize_precedence_chain (parse : String → Option Json) :
    (∀ (r : RpcResult) (fields : List (String × Json)),
      r.structured_content = some fields → fields.isEmpty = false →
      multiNormalize parse r = Json.obj fields ∧ singleNormalize parse r = Json.obj fields)
    ∧ (∀ (r : RpcResult) (d : Json), scTruthy r = false → r.data = some d →
      multiNormalize parse r = Json.obj [("result", d)]
      ∧ singleNormalize parse r = Json.obj [("result", d)])
    ∧ (∀ (r : RpcResult) (first : ContentItem) (rest : List ContentItem) (t : String) (j : Json),
      scTruthy r = false → r.data = none →
      r.content = some (ContentVal.list (first :: rest)) → first.text = some t →
      parse t = some j →
      multiNormalize parse r = j ∧ singleNormalize parse r = j)
    ∧ (∀ (r : RpcResult) (first : ContentItem) (rest : List ContentItem) (t : String),
      scTruthy r = false → r.data = none →
      r.content = some (ContentVal.list (first :: rest)) → first.text = some t →
      parse t = none →
      multiNormalize parse r = Json.obj [("result", Json.str t)]
      ∧ singleNormalize parse r = Json.obj [("result", Json.str t)])
    ∧ (∀ r : RpcResult, scTruthy r = false → r.data = none →
      contentOptTruthy r.content = false →
      multiNormalize parse r = Json.obj [("result", Json.str "Success")]
      ∧ singleNormalize parse r = Json.obj [("result", Json.str "Success")]) := by
  refine ⟨?_, ?_, ?_, ?_, ?_⟩
  · intro r fields hsc he
    constructor <;> simp [multiNormalize, singleNormalize, scTruthy, hsc, he]
  · intro r d hsc hd
    constructor <;> simp [multiNormalize, singleNormalize, hsc, hd]
  · intro r first rest t j hsc hd hc ht hp
    constructor <;>
      simp [multiNormalize, singleNormalize, hsc, hd, hc, contentOptTruthy,
        contentValTruthy, firstOrSelf, ht, hp]
  · intro r first rest t hsc hd hc ht hp
    constructor <;>
      simp [multiNormalize, singleNormalize, hsc, hd, hc, contentOptTruthy,
        contentValTruthy, firstOrSelf, ht, hp]
  · intro r hsc hd hc
    constructor <;> simp [multiNormalize, singleNormalize, hsc, hd, hc]

/-- A concrete model of json.loads for the witnesses: the text "[4]"
parses to the array [4], everything else fails to parse. -/
def p0 : String → Option Json :=
  fun s => if s = "[4]" then some (Json.arr [Json.num 4]) else none

/-- Concrete result: structured content present together with data. -/
def rStruct : RpcResult :=
  { structured_content := some [("x", Json.num 1)], data := some (Json.num 5), content := none }

/-- Concrete result: only a data field. -/
def rData : RpcResult :=
  { structured_content := none, data := some (Json.num 5), content := none }

/-- Concrete result: a content list whose first element's text is
valid JSON. -/
def rGoodText : RpcResult :=
  { structured_content := none, data := none,
    content := some (ContentVal.list [{ text := some "[4]", pyStr := "tc" }]) }

/-- Concrete result: a content list whose first element's text is not
valid JSON. -/
def rBadText : RpcResult :=
  { structured_content := none, data := none,
    content := some (ContentVal.list [{ text := some "not-json", pyStr := "tc" }]) }

/-- Concrete result: fully empty. -/
def rEmpty : RpcResult :=
  { structured_content := none, data := none, content := none }

/-- Witness for C1 at the four concrete result shapes, in both
variants. -/
theorem C1_normalize_precedence_chain_witness :
    multiNormalize p0 rStruct = Json.obj [("x", Json.num 1)]
    ∧ singleNormalize p0 rStruct = Json.obj [("x", Json.num 1)]
    ∧ multiNormalize p0 rData = Json.obj [("result", Json.num 5)]
    ∧ singleNormalize p0 rData = Json.obj [("result", Json.num 5)]
    ∧ multiNormalize p0 rGoodText = Json.arr [Json.num 4]
    ∧ singleNormalize p0 rGoodText = Json.arr [Json.num 4]
    ∧ multiNormalize p0 rBadText = Json.obj [("result", Json.str "not-json")]
    ∧ singleNormalize p0 rBadText = Json.obj [("result", Json.str "not-json")]
    ∧ multiNormalize p0 rEmpty = Json.obj [("result", Json.str "Success")]
    ∧ singleNormalize p0 rEmpty = Json.obj [("result", Json.str "Success")] := by
  have h := C1_normalize_precedence_chain p0
  have h1 := h.1 rStruct [("x", Json.num 1)] rfl rfl
  have h2 := h.2.1 rData (Json.num 5) rfl rfl
  have h3 := h.2.2.1 rGoodText { text := some "[4]", pyStr := "tc" } [] "[4]"
    (Json.arr [Json.num 4]) rfl rfl rfl rfl (by simp [p0])
  have h4 := h.2.2.2.1 rBadText { text := some "not-json", pyStr := "tc" } [] "not-json"
    rfl rfl rfl rfl (by simp [p0])
  have h5 := h.2.2.2.2 rEmpty rfl rfl rfl
  exact ⟨h1.1, h1.2, h2.1, h2.2, h3.1, h3.2, h4.1, h4.2, h5.1, h5.2⟩

/- ----------------------------------------------------------------
   C8: the two variants' normalizers compared
   ---------------------------------------------------------------- -/

/-- The result shapes on which the two normalizers coincide: any
result whose content is absent, an empty list, a non-empty list whose
first element carries text, or a non-list object without text. The
excluded shapes are where the variants genuinely diverge. -/
def agreeShape (r : RpcResult) : Bool :=
  match r.content with
  | some (ContentVal.list (first :: _)) => first.text.isSome
  | some (ContentVal.single item) => item.text.isNone
  | _ => true

/-- C8 amended: the multi- and single-variant normalizers agree on
every result whose content is absent, empty, a list whose first
element carries text, or a non-list object without text; they diverge
when the first list element has no text (multi stringifies the whole
list, single only the first element) and when a non-list content
object carries text (multi stringifies it, single JSON-parses it). -/
theorem C8_normalizers_agree (parse : String → Option Json) (r : RpcResult)
    (h : agreeShape r = true) :
    multiNormalize parse r = singleNormalize parse r := by
  by_cases hsc : scTruthy r = true
  · simp [multiNormalize, singleNormalize, hsc]
  · have hsc' : scTruthy r = false := by simpa using hsc
    cases hd : r.data with
    | some d => simp [multiNormalize, singleNormalize, hsc', hd]
    | none =>
      cases hc : r.content with
      | none => simp [multiNormalize, singleNormalize, hsc', hd, hc, contentOptTruthy]
      | some c =>
        cases c with
        | list items =>
          cases items with
          | nil =>
            simp [multiNormalize, singleNormalize, hsc', hd, hc, contentOptTruthy,
              contentValTruthy]
          | cons first rest =>
            have htext : first.text.isSome = true := by
              simpa [agreeShape, hc] using h
            cases ht : first.text with
            | none => rw [ht] at htext; cases htext
            | some t =>
              cases hp : parse t <;>
                simp [multiNormalize, singleNormalize, hsc', hd, hc, contentOptTruthy,
                  contentValTruthy, firstOrSelf, ht, hp]
        | single item =>
          have htext : item.text = none := by
            have := h
            simp [agreeShape, hc, Option.isNone_iff_eq_none] at this
            exact this
          simp [multiNormalize, singleNormalize, hsc', hd, hc, contentOptTruthy,
            contentValTruthy, contentOptStr, contentValStr, firstOrSelf, htext]

/-- Witness for C8 at a concrete agreeing result. -/
theorem C8_normalizers_agree_witness :
    multiNormalize p0 rGoodText = singleNormalize p0 rGoodText :=
  C8_normalizers_agree p0 rGoodText rfl

/-- Projection used to tell two normalized objects apart: the string
sitting under a sole "result" key. -/
def resultField : Json → Option String
  | Json.obj [(k, Json.str s)] => if k = "result" then some s else none
  | _ => none

/-- Concrete result on which the two normalizers diverge: a content
list whose first element has no text attribute. -/
def rNoText : RpcResult :=
  { structured_content := none, data := none,
    content := some (ContentVal.list [{ text := none, pyStr := "obj" }]) }

/-- C8 counterexample: on a content list whose first element carries
no text, the multi variant wraps the string form of the whole list
while the single variant wraps only the first element, so the two
normalizers are not extensionally equal. -/
theorem C8_counterexample :
    multiNormalize p0 rNoText ≠ singleNormalize p0 rNoText := by
  intro h
  have h1 : resultField (multiNormalize p0 rNoText) = some "[obj]" := rfl
  have h2 : resultField (singleNormalize p0 rNoText) = some "obj" := rfl
  rw [h, h2] at h1
  injection h1 with h3
  exact absurd h3 (by decide)

/- ----------------------------------------------------------------
   C2: the invocation gateway's error layer
   ---------------------------------------------------------------- -/

/-- The outcome of one remote client.call_tool invocation: a result
object or a raised exception whose str() is msg. -/
inductive RpcBehavior where
  | ret (r : RpcResult)
  | raise (msg : String)

/-- What the bound handler hands back to the HTTP layer: a normalized
JSON value or an HTTPException with a status code and detail text. -/
inductive CallOutcome where
  | ok (v : Json)
  | http (status : Nat) (detail : String)

/-- The HTTP status of an outcome, none for a plain 200 result. -/
def CallOutcome.statusOf : CallOutcome → Option Nat
  | CallOutcome.ok _ => none
  | CallOutcome.http s _ => some s

/-- The HTTPException detail of an outcome. -/
def CallOutcome.detailOf : CallOutcome → String
  | CallOutcome.ok _ => ""
  | CallOutcome.http _ d => d

/-- call_tool of multi_mcp.py (lines 45-80): clients.get(server_name)
returning nothing raises HTTPException 503; otherwise the None-valued
params are dropped, the remote call runs (modelled by backend applied
to the filtered argument map), any exception becomes HTTPException
500 with the tool name and the cause, and a result is normalized. -/
def multi_call_tool (parse : String → Option Json) (clients : List String)
    (tool_name : String) (params : List (String × Json)) (server_name : String)
    (backend : List (String × Json) → RpcBehavior) : CallOutcome :=
  if server_name ∈ clients then
    match backend (filterParams params) with
    | RpcBehavior.ret r => CallOutcome.ok (multiNormalize parse r)
    | RpcBehavior.raise e => CallOutcome.http 500 (tool_name ++ " 실행 오류: " ++ e)
  else CallOutcome.http 503 (server_name ++ " MCP 서버 연결 불가")

/-- The str() of the AttributeError raised by the attribute access
client.call_tool when the module-level client is still None (quote
characters elided from the CPython message). -/
def noneAttributeError : String :=
  "NoneType object has no attribute call_tool"

/-- call_tool of single_mcp.py (lines 44-65): there is no 503 path;
client = false models the module-level client still being None, in
which case the attribute access client.call_tool raises inside the
try block and is converted, like every other exception, to
HTTPException 500 whose detail carries only the cause text. -/
def single_call_tool (parse : String → Option Json) (client : Bool)
    (tool_name : String) (params : List (String × Json))
    (backend : List (String × Json) → RpcBehavior) : CallOutcome :=
  if client then
    match backend (filterParams params) with
    | RpcBehavior.ret r => CallOutcome.ok (singleNormalize parse r)
    | RpcBehavior.raise e => CallOutcome.http 500 ("도구 실행 중 오류: " ++ e)
  else CallOutcome.http 500 ("도구 실행 중 오류: " ++ noneAttributeError)

/-- Bool test that the character list sub occurs at the start of a
character list. -/
def charsBegin : List Char → List Char → Bool
  | [], _ => true
  | _ :: _, [] => false
  | a :: as, b :: bs => a == b && charsBegin as bs

/-- Bool test that the character list sub occurs somewhere inside a
character list; used to state that a detail text embeds a name. -/
def charsOccur (sub : List Char) : List Char → Bool
  | [] => charsBegin sub []
  | b :: bs => charsBegin sub (b :: bs) || charsOccur sub bs

/-- C2 counterexample: in the single variant a missing live
connection yields status 500, not the claimed 503, and the 500 detail
for a failing remote call does not embed the operation name. -/
theorem C2_counterexample :
    CallOutcome.statusOf (single_call_tool p0 false "add" [] (fun _ => RpcBehavior.ret rEmpty))
      = some 500
    ∧ CallOutcome.detailOf (single_call_tool p0 true "add" [] (fun _ => RpcBehavior.raise "boom"))
      = "도구 실행 중 오류: boom"
    ∧ charsOccur "add".data ("도구 실행 중 오류: boom").data = false := by
  exact ⟨rfl, rfl, by decide⟩

/-- C2 amended: in the multi variant a missing connection yields 503
and a raising remote call yields 500 whose detail embeds the
operation name and the cause; in the single variant a missing
connection surfaces as 500 (the AttributeError is caught by the
generic handler) and a raising remote call yields 500 whose detail
embeds only the cause. -/
theorem C2_gateway_errors (parse : String → Option Json) (clients : List String)
    (tool_name server_name : String) (params : List (String × Json))
    (backend : List (String × Json) → RpcBehavior) (e : String) :
    (server_name ∉ clients →
      multi_call_tool parse clients tool_name params server_name backend
        = CallOutcome.http 503 (server_name ++ " MCP 서버 연결 불가"))
    ∧ (server_name ∈ clients → backend (filterParams params) = RpcBehavior.raise e →
      multi_call_tool parse clients tool_name params server_name backend
        = CallOutcome.http 500 (tool_name ++ " 실행 오류: " ++ e))
    ∧ (single_call_tool parse false tool_name params backend
        = CallOutcome.http 500 ("도구 실행 중 오류: " ++ noneAttributeError))
    ∧ (backend (filterParams params) = RpcBehavior.raise e →
      single_call_tool parse true tool_name params backend
        = CallOutcome.http 500 ("도구 실행 중 오류: " ++ e)) := by
  refine ⟨?_, ?_, rfl, ?_⟩
  · intro h
    simp [multi_call_tool, h]
  · intro h hb
    simp [multi_call_tool, h, hb]
  · intro hb
    simp [single_call_tool, hb]

/-- Witness for C2 amended at concrete inputs for all four branches. -/
theorem C2_gateway_errors_witness :
    multi_call_tool p0 ["s1"] "add" [] "s2" (fun _ => RpcBehavior.ret rEmpty)
      = CallOutcome.http 503 ("s2" ++ " MCP 서버 연결 불가")
    ∧ multi_call_tool p0 ["s1"] "add" [] "s1" (fun _ => RpcBehavior.raise "boom")
      = CallOutcome.http 500 ("add" ++ " 실행 오류: " ++ "boom")
    ∧ single_call_tool p0 false "add" [] (fun _ => RpcBehavior.ret rEmpty)
      = CallOutcome.http 500 ("도구 실행 중 오류: " ++ noneAttributeError)
    ∧ single_call_tool p0 true "add" [] (fun _ => RpcBehavior.raise "boom")
      = CallOutcome.http 500 ("도구 실행 중 오류: " ++ "boom") := by
  have hA := (C2_gateway_errors p0 ["s1"] "add" "s2" []
    (fun _ => RpcBehavior.ret rEmpty) "boom").1 (by decide)
  have hB := (C2_gateway_errors p0 ["s1"] "add" "s1" []
    (fun _ => RpcBehavior.raise "boom") "boom").2.1 (by decide) rfl
  have hC := (C2_gateway_errors p0 ["s1"] "add" "s1" []
    (fun _ => RpcBehavior.ret rEmpty) "boom").2.2.1
  have hD := (C2_gateway_errors p0 ["s1"] "add" "s1" []
    (fun _ => RpcBehavior.raise "boom") "boom").2.2.2 rfl
  exact ⟨hA, hB, hC, hD⟩

/- ----------------------------------------------------------------
   C3 and C4: parameter binding of create_dynamic_endpoint
   ---------------------------------------------------------------- -/

/-- One property of inputSchema.properties: its optional type tag,
description and title. -/
structure PropSchema where
  type : Option String
  description : Option String
  title : Option String

/-- inputSchema as read by create_dynamic_endpoint: the properties
mapping and the required name list. -/
structure InputSchema where
  properties : List (String × PropSchema)
  required : List String

/-- The per-parameter record param_info[name] built by
create_dynamic_endpoint: the scalar type via get_python_type,
defaulted description and title, and the membership test
name in required_fields. -/
structure ParamInfo where
  type : PyType
  description : String
  title : String
  required : Bool

/-- One entry of param_info in multi_mcp.py create_dynamic_endpoint
(lines 96-103): the scalar type via get_python_type, the description
defaulting to the name followed by " parameter", the title defaulting
to the name, and the membership test name in required_fields. -/
def paramRecordMulti (input_schema : InputSchema) (p : String × PropSchema) :
    String × ParamInfo :=
  (p.1,
    { type := get_python_type ((p.2).type.getD "string")
      description := (p.2).description.getD (p.1 ++ " parameter")
      title := (p.2).title.getD p.1
      required := input_schema.required.contains p.1 })

/-- param_info of multi_mcp.py create_dynamic_endpoint (lines
94-103). -/
def build_param_info_multi (input_schema : InputSchema) : List (String × ParamInfo) :=
  input_schema.properties.map (paramRecordMulti input_schema)

/-- One entry of param_info in single_mcp.py create_dynamic_endpoint
(lines 74-80): identical except the description defaults to the bare
name. -/
def paramRecordSingle (input_schema : InputSchema) (p : String × PropSchema) :
    String × ParamInfo :=
  (p.1,
    { type := get_python_type ((p.2).type.getD "string")
      description := (p.2).description.getD p.1
      title := (p.2).title.getD p.1
      required := input_schema.required.contains p.1 })

/-- param_info of single_mcp.py create_dynamic_endpoint (lines
69-80). -/
def build_param_info_single (input_schema : InputSchema) : List (String × ParamInfo) :=
  input_schema.properties.map (paramRecordSingle input_schema)

/-- Modelled external framework behavior: FastAPI binds each declared
query parameter of the synthesized signature. A parameter whose
default is Query(...) (required := true in param_info) is rejected
with a validation error when the request omits it; an optional
parameter (default Query(None)) binds to None when omitted. The
endpoint body runs only when every parameter bound. -/
def bindParams (info : List (String × ParamInfo)) (req : String → Option Json) :
    Except String (List (String × Json)) :=
  match info with
  | [] => Except.ok []
  | q :: rest =>
    match req q.1 with
    | some v => (bindParams rest req).map (fun tail => (q.1, v) :: tail)
    | none =>
      if (q.2).required then Except.error q.1
      else (bindParams rest req).map (fun tail => (q.1, Json.null) :: tail)

/-- What the bound endpoint does with an inbound request: reject it
at validation, or invoke call_tool, whose first act is dropping the
None-valued entries, so args is the argument map the backend
receives. -/
inductive HandlerOutcome where
  | validationError (missing : String)
  | invoked (args : List (String × Json))

/-- The composite of FastAPI binding and the filtering head of
call_tool: the argument map carried by HandlerOutcome.invoked is
exactly what reaches the remote client.call_tool. -/
def handleRequest (info : List (String × ParamInfo)) (req : String → Option Json) :
    HandlerOutcome :=
  match bindParams info req with
  | Except.error n => HandlerOutcome.validationError n
  | Except.ok kwargs => HandlerOutcome.invoked (filterParams kwargs)

theorem bindParams_error_of_missing_required (info : List (String × ParamInfo))
    (req : String → Option Json)
    (h : ∃ p ∈ info, (p.2).required = true ∧ req p.1 = none) :
    ∃ m, bindParams info req = Except.error m := by
  induction info with
  | nil => obtain ⟨p, hp, _⟩ := h; cases hp
  | cons q rest ih =>
    obtain ⟨p, hp, hreq, habs⟩ := h
    rcases List.mem_cons.mp hp with hq | hrest
    · subst hq
      rw [bindParams, habs, if_pos hreq]
      exact ⟨p.1, rfl⟩
    · obtain ⟨m, hm⟩ := ih ⟨p, hrest, hreq, habs⟩
      rw [bindParams]
      cases hr : req q.1 with
      | some v => rw [hm]; exact ⟨m, rfl⟩
      | none =>
        by_cases hq : (q.2).required = true
        · rw [if_pos hq]; exact ⟨q.1, rfl⟩
        · rw [if_neg hq, hm]; exact ⟨m, rfl⟩

theorem bindParams_ok_values (info : List (String × ParamInfo))
    (req : String → Option Json) (kwargs : List (String × Json))
    (h : bindParams info req = Except.ok kwargs) :
    ∀ p ∈ kwargs, req p.1 = some p.2 ∨ (p.2 = Json.null ∧ req p.1 = none) := by
  induction info generalizing kwargs with
  | nil =>
    rw [bindParams] at h
    cases h
    intro p hp
    cases hp
  | cons q rest ih =>
    rw [bindParams] at h
    cases hr : req q.1 with
    | some v =>
      rw [hr] at h
      cases hrest : bindParams rest req with
      | error e => rw [hrest] at h; cases h
      | ok tail =>
        rw [hrest] at h
        cases h
        intro p hp
        rcases List.mem_cons.mp hp with hq | ht
        · subst hq; exact Or.inl hr
        · exact ih tail hrest p ht
    | none =>
      rw [hr] at h
      by_cases hq : (q.2).required = true
      · rw [if_pos hq] at h; cases h
      · rw [if_neg hq] at h
        cases hrest : bindParams rest req with
        | error e => rw [hrest] at h; cases h
        | ok tail =>
          rw [hrest] at h
          cases h
          intro p hp
          rcases List.mem_cons.mp hp with hq2 | ht
          · subst hq2; exact Or.inr ⟨rfl, hr⟩
          · exact ih tail hrest p ht

theorem handle_validation_of_missing (info : List (String × ParamInfo))
    (req : String → Option Json)
    (h : ∃ p ∈ info, (p.2).required = true ∧ req p.1 = none) :
    (∃ m, handleRequest info req = HandlerOutcome.validationError m)
    ∧ ∀ args, handleRequest info req ≠ HandlerOutcome.invoked args := by
  obtain ⟨m, hm⟩ := bindParams_error_of_missing_required info req h
  constructor
  · exact ⟨m, by rw [handleRequest, hm]⟩
  · intro args hinv
    rw [handleRequest, hm] at hinv
    cases hinv

theorem handle_invoked_excludes_absent (info : List (String × ParamInfo))
    (req : String → Option Json) (n : String) (habsent : req n = none) :
    ∀ args, handleRequest info req = HandlerOutcome.invoked args →
      n ∉ args.map Prod.fst := by
  intro args hinv hmem
  rw [handleRequest] at hinv
  cases hb : bindParams info req with
  | error e => rw [hb] at hinv; cases hinv
  | ok kwargs =>
    rw [hb] at hinv
    cases hinv
    obtain ⟨p, hp, hfst⟩ := List.mem_map.mp hmem
    have hfil := (List.mem_filter.mp hp)
    have hval := bindParams_ok_values info req kwargs hb p hfil.1
    have hnn : p.2 ≠ Json.null := by
      have := hfil.2
      exact (isNull_false_iff p.2).mp this
    rcases hval with hsome | ⟨hnull, _⟩
    · rw [hfst] at hsome
      rw [habsent] at hsome
      cases hsome
    · exact hnn hnull

/-- C3: for an operation descriptor with a required parameter, a
request omitting that parameter is rejected with a validation error
naming a missing required parameter, and call_tool (hence the
backend) is never invoked — in both variants. -/
theorem C3_required_param_rejected (schema : InputSchema) (req : String → Option Json)
    (n : String) (ps : PropSchema)
    (hmem : (n, ps) ∈ schema.properties)
    (hreq : schema.required.contains n = true)
    (habsent : req n = none) :
    ((∃ m, handleRequest (build_param_info_multi schema) req = HandlerOutcome.validationError m)
      ∧ ∀ args, handleRequest (build_param_info_multi schema) req ≠ HandlerOutcome.invoked args)
    ∧ ((∃ m, handleRequest (build_param_info_single schema) req = HandlerOutcome.validationError m)
      ∧ ∀ args, handleRequest (build_param_info_single schema) req ≠ HandlerOutcome.invoked args) := by
  constructor
  · apply handle_validation_of_missing
    refine ⟨paramRecordMulti schema (n, ps), ?_, ?_, habsent⟩
    · exact List.mem_map.mpr ⟨(n, ps), hmem, rfl⟩
    · exact hreq
  · apply handle_validation_of_missing
    refine ⟨paramRecordSingle schema (n, ps), ?_, ?_, habsent⟩
    · exact List.mem_map.mpr ⟨(n, ps), hmem, rfl⟩
    · exact hreq

/-- A concrete string property with no explicit metadata. -/
def propStr : PropSchema := { type := some "string", description := none, title := none }

/-- A concrete greet-like schema with one required parameter. -/
def schemaGreet : InputSchema := { properties := [("name", propStr)], required := ["name"] }

/-- The request that supplies nothing. -/
def reqNone : String → Option Json := fun _ => none

/-- Witness for C3: a request omitting the required parameter of the
concrete schema is rejected in both variants. -/
theorem C3_required_param_rejected_witness :
    (∃ m, handleRequest (build_param_info_multi schemaGreet) reqNone
      = HandlerOutcome.validationError m)
    ∧ (∃ m, handleRequest (build_param_info_single schemaGreet) reqNone
      = HandlerOutcome.validationError m) := by
  have h := C3_required_param_rejected schemaGreet reqNone "name" propStr
    (List.mem_cons_self _ _) rfl rfl
  exact ⟨h.1.1, h.2.1⟩

/-- C4: a request omitting an optional parameter leads to an
invocation whose argument map excludes that parameter's key entirely
— no None placeholder reaches the backend, in either variant. -/
theorem C4_omitted_optional_excluded (schema : InputSchema) (req : String → Option Json)
    (n : String) (ps : PropSchema)
    (hmem : (n, ps) ∈ schema.properties)
    (hopt : schema.required.contains n = false)
    (habsent : req n = none) :
    (∀ args, handleRequest (build_param_info_multi schema) req = HandlerOutcome.invoked args →
      n ∉ args.map Prod.fst)
    ∧ (∀ args, handleRequest (build_param_info_single schema) req = HandlerOutcome.invoked args →
      n ∉ args.map Prod.fst) :=
  ⟨handle_invoked_excludes_absent (build_param_info_multi schema) req n habsent,
   handle_invoked_excludes_absent (build_param_info_single schema) req n habsent⟩

/-- A concrete schema with a required parameter a and an optional
parameter b. -/
def schemaAB : InputSchema :=
  { properties := [("a", propStr), ("b", propStr)], required := ["a"] }

/-- The request that supplies only a. -/
def reqOnlyA : String → Option Json := fun s => if s = "a" then some (Json.num 1) else none

/-- Witness for C4: with b omitted, the argument map that reaches the
backend is exactly the singleton a entry, and b is not among its
keys, in both variants. -/
theorem C4_omitted_optional_excluded_witness :
    handleRequest (build_param_info_multi schemaAB) reqOnlyA
      = HandlerOutcome.invoked [("a", Json.num 1)]
    ∧ handleRequest (build_param_info_single schemaAB) reqOnlyA
      = HandlerOutcome.invoked [("a", Json.num 1)]
    ∧ ("b" : String) ∉ ([("a", Json.num 1)] : List (String × Json)).map Prod.fst := by
  have h := C4_omitted_optional_excluded schemaAB reqOnlyA "b" propStr
    (List.mem_cons_of_mem _ (List.mem_cons_self _ _)) rfl rfl
  exact ⟨rfl, rfl, h.1 [("a", Json.num 1)] rfl⟩

/- ----------------------------------------------------------------
   C5, C6, C10: the startup registration loop
   ---------------------------------------------------------------- -/

/-- The tool_data dict cached per discovered tool
(multi_mcp.py:151-157, single_mcp.py:113-119). -/
structure ToolData where
  name : String
  title : Option String
  description : Option String
  inputSchema : InputSchema
  outputSchema : Option (List String)

/-- A raw tool descriptor as returned by discovery. name = none
models a descriptor missing its identity: the attribute access
tool.name then raises, caught by the enclosing per-source handler. -/
structure RawTool where
  name : Option String
  title : Option String
  description : Option String
  inputSchema : InputSchema
  outputSchema : Option (List String)

/-- The tool_data dict built from one discovered tool whose name
resolved to n. -/
def buildToolData (t : RawTool) (n : String) : ToolData :=
  { name := n
    title := t.title
    description := t.description
    inputSchema := t.inputSchema
    outputSchema := t.outputSchema }

/-- Dict assignment d[k] = v on an association list: replaces the
first binding of k in place or appends a new one. -/
def setKey {α : Type} (k : String) (v : α) : List (String × α) → List (String × α)
  | [] => [(k, v)]
  | p :: rest => if p.1 = k then (k, v) :: rest else p :: setKey k v rest

/-- Dict assignment clients[name] = client, seen through its key
set. -/
def addClient (k : String) (cs : List String) : List String :=
  if k ∈ cs then cs else cs ++ [k]

/-- The key list of an association list. -/
def keysOf {α : Type} (l : List (String × α)) : List String :=
  l.map Prod.fst

/-- The module-level mutable state of multi_mcp.py: the clients dict
(keys only — the handles are opaque), tools_cache, and the route
names registered on the app by create_dynamic_endpoint. -/
structure GatewayState where
  clients : List String
  tools_cache : List (String × List (String × ToolData))
  endpoints : List String

/-- tools_cache[server][tool] = td. -/
def cacheAdd (server tool : String) (td : ToolData)
    (tc : List (String × List (String × ToolData))) :
    List (String × List (String × ToolData)) :=
  setKey server (setKey tool td ((tc.lookup server).getD [])) tc

/-- What the environment does for one configured source: the
connection attempt (Client + aenter) fails; the connection succeeds
but list_tools_mcp raises; or discovery returns a tool list. -/
inductive SourceEnv where
  | connectFail
  | listFail
  | tools (ts : List RawTool)

/-- True exactly on the connection-failure environment. -/
def SourceEnv.isConnectFail : SourceEnv → Bool
  | SourceEnv.connectFail => true
  | _ => false

/-- The per-source tool loop of startup_event (multi_mcp.py:150-160):
each named tool is cached under its name and its route is bound; a
tool whose name attribute is missing raises, aborting the loop with
the state kept as already built (the exception is caught at the
source level, which moves on to the next source). -/
def processToolsLoop (server : String) (ts : List RawTool) (st : GatewayState) :
    GatewayState :=
  match ts with
  | [] => st
  | t :: rest =>
    match t.name with
    | none => st
    | some n =>
      processToolsLoop server rest
        { clients := st.clients
          tools_cache := cacheAdd server n (buildToolData t n) st.tools_cache
          endpoints := st.endpoints ++ [n] }

/-- One iteration of the startup loop (multi_mcp.py:140-161): on
connection failure nothing changes (continue); the client is
registered before discovery, so a discovery failure leaves the
source in clients without a cache entry; a returned tool list first
sets tools_cache[name] to the empty dict and then runs the tool
loop. -/
def startup_source (server : String) (env : SourceEnv) (st : GatewayState) :
    GatewayState :=
  match env with
  | SourceEnv.connectFail => st
  | SourceEnv.listFail => { st with clients := addClient server st.clients }
  | SourceEnv.tools ts =>
    processToolsLoop server ts
      { clients := addClient server st.clients
        tools_cache := setKey server [] st.tools_cache
        endpoints := st.endpoints }

/-- The state before startup: empty dicts, no routes. -/
def emptyState : GatewayState :=
  { clients := [], tools_cache := [], endpoints := [] }

/-- startup_event of multi_mcp.py (lines 137-161): the sources in
order, each failure contained per source. -/
def startup_event (env : String → SourceEnv) (servers : List String) : GatewayState :=
  servers.foldl (fun st s => startup_source s (env s) st) emptyState

/-- One entry of the per-server tool list built by the root endpoint. -/
structure ToolListing where
  name : String
  title : Option String
  description : Option String
  endpoint : String
  parameters : List String

/-- One per-server entry of the root listing. -/
structure ServerListing where
  server : String
  tools : List ToolListing
  total : Nat

/-- The root endpoint of multi_mcp.py (lines 175-193): one entry per
tools_cache key, with per-tool name, title, description, route path
and parameter names. -/
def rootListing (st : GatewayState) : List ServerListing :=
  st.tools_cache.map (fun p =>
    { server := p.1
      tools := p.2.map (fun q =>
        { name := q.1
          title := (q.2).title
          description := (q.2).description
          endpoint := "/" ++ q.1
          parameters := keysOf ((q.2).inputSchema).properties })
      total := p.2.length })

/-- The module-level state of single_mcp.py: whether the client
global was assigned (it is assigned before aenter, so it is set even
when the connection attempt fails), the tools cache and the bound
routes. -/
structure SingleState where
  clientSet : Bool
  tools_cache : List (String × ToolData)
  endpoints : List String

/-- The tool loop of single_mcp.py startup_event (lines 111-121),
with the same abort-on-missing-name behavior as the multi variant. -/
def processToolsSingle (ts : List RawTool) (st : SingleState) : SingleState :=
  match ts with
  | [] => st
  | t :: rest =>
    match t.name with
    | none => st
    | some n =>
      processToolsSingle rest
        { clientSet := st.clientSet
          tools_cache := setKey n (buildToolData t n) st.tools_cache
          endpoints := st.endpoints ++ [n] }

/-- startup_event of single_mcp.py (lines 102-125): one source; any
failure is logged and leaves the remaining state empty. -/
def single_startup_event (env : SourceEnv) : SingleState :=
  match env with
  | SourceEnv.connectFail => { clientSet := true, tools_cache := [], endpoints := [] }
  | SourceEnv.listFail => { clientSet := true, tools_cache := [], endpoints := [] }
  | SourceEnv.tools ts =>
    processToolsSingle ts { clientSet := true, tools_cache := [], endpoints := [] }

theorem setKey_keys_mem {α : Type} (k : String) (v : α) (l : List (String × α)) :
    ∀ x ∈ keysOf (setKey k v l), x = k ∨ x ∈ keysOf l := by
  induction l with
  | nil => intro x hx; simp [setKey, keysOf] at hx; exact Or.inl hx
  | cons p rest ih =>
    intro x hx
    by_cases hp : p.1 = k
    · rw [setKey, if_pos hp] at hx
      simp [keysOf] at hx ⊢
      rcases hx with h | h
      · exact Or.inl h
      · exact Or.inr (Or.inr h)
    · rw [setKey, if_neg hp] at hx
      simp [keysOf] at hx ⊢
      rcases hx with h | h
      · exact Or.inr (Or.inl h)
      · rcases ih x (by simpa [keysOf] using h) with h2 | h2
        · exact Or.inl h2
        · exact Or.inr (Or.inr (by simpa [keysOf] using h2))

theorem addClient_mem (k : String) (cs : List String) :
    ∀ x ∈ addClient k cs, x = k ∨ x ∈ cs := by
  intro x hx
  by_cases hk : k ∈ cs
  · rw [addClient, if_pos hk] at hx; exact Or.inr hx
  · rw [addClient, if_neg hk] at hx
    rcases List.mem_append.mp hx with h | h
    · exact Or.inr h
    · exact Or.inl (List.mem_singleton.mp h)

theorem addClient_sub (k : String) (cs : List String) :
    ∀ x ∈ cs, x ∈ addClient k cs := by
  intro x hx
  by_cases hk : k ∈ cs
  · rw [addClient, if_pos hk]; exact hx
  · rw [addClient, if_neg hk]; exact List.mem_append.mpr (Or.inl hx)

theorem addClient_self (k : String) (cs : List String) : k ∈ addClient k cs := by
  by_cases hk : k ∈ cs
  · rw [addClient, if_pos hk]; exact hk
  · rw [addClient, if_neg hk]
    exact List.mem_append.mpr (Or.inr (List.mem_singleton.mpr rfl))

theorem processToolsLoop_clients (server : String) (ts : List RawTool) (st : GatewayState) :
    (processToolsLoop server ts st).clients = st.clients := by
  induction ts generalizing st with
  | nil => rfl
  | cons t rest ih =>
    cases ht : t.name with
    | none => simp [processToolsLoop, ht]
    | some n => simp [processToolsLoop, ht, ih]

theorem processToolsLoop_keys (server : String) (ts : List RawTool) (st : GatewayState) :
    ∀ x ∈ keysOf (processToolsLoop server ts st).tools_cache,
      x = server ∨ x ∈ keysOf st.tools_cache := by
  induction ts generalizing st with
  | nil => intro x hx; exact Or.inr hx
  | cons t rest ih =>
    intro x hx
    cases ht : t.name with
    | none =>
      rw [processToolsLoop, ht] at hx
      exact Or.inr hx
    | some n =>
      rw [processToolsLoop, ht] at hx
      rcases ih _ x hx with h | h
      · exact Or.inl h
      · rcases setKey_keys_mem server _ st.tools_cache x h with h2 | h2
        · exact Or.inl h2
        · exact Or.inr h2

theorem processToolsLoop_endpoints_mono (server : String) (ts : List RawTool)
    (st : GatewayState) :
    ∀ x ∈ st.endpoints, x ∈ (processToolsLoop server ts st).endpoints := by
  induction ts generalizing st with
  | nil => intro x hx; exact hx
  | cons t rest ih =>
    intro x hx
    cases ht : t.name with
    | none => rw [processToolsLoop, ht]; exact hx
    | some n =>
      rw [processToolsLoop, ht]
      exact ih _ x (List.mem_append.mpr (Or.inl hx))

theorem startup_source_clients_mem (server : String) (e : SourceEnv) (st : GatewayState) :
    ∀ x ∈ (startup_source server e st).clients, x = server ∨ x ∈ st.clients := by
  intro x hx
  cases e with
  | connectFail => exact Or.inr hx
  | listFail => exact addClient_mem server st.clients x hx
  | tools ts =>
    rw [startup_source, processToolsLoop_clients] at hx
    exact addClient_mem server st.clients x hx

theorem startup_source_keys_mem (server : String) (e : SourceEnv) (st : GatewayState) :
    ∀ x ∈ keysOf (startup_source server e st).tools_cache,
      x = server ∨ x ∈ keysOf st.tools_cache := by
  intro x hx
  cases e with
  | connectFail => exact Or.inr hx
  | listFail => exact Or.inr hx
  | tools ts =>
    rw [startup_source] at hx
    rcases processToolsLoop_keys server ts _ x hx with h | h
    · exact Or.inl h
    · rcases setKey_keys_mem server [] st.tools_cache x h with h2 | h2
      · exact Or.inl h2
      · exact Or.inr h2

theorem rootListing_servers (st : GatewayState) :
    (rootListing st).map ServerListing.server = keysOf st.tools_cache := by
  simp [rootListing, keysOf]

theorem startup_fold_not_mem (env : String → SourceEnv) (s : String)
    (hfail : env s = SourceEnv.connectFail) (servers : List String) :
    ∀ st : GatewayState, s ∉ st.clients → s ∉ keysOf st.tools_cache →
      s ∉ (servers.foldl (fun st x => startup_source x (env x) st) st).clients
      ∧ s ∉ keysOf (servers.foldl (fun st x => startup_source x (env x) st) st).tools_cache := by
  induction servers with
  | nil => intro st h1 h2; exact ⟨h1, h2⟩
  | cons x rest ih =>
    intro st h1 h2
    simp only [List.foldl_cons]
    by_cases hxs : x = s
    · subst hxs
      rw [hfail]
      exact ih st h1 h2
    · apply ih
      · intro hmem
        rcases startup_source_clients_mem x (env x) st s hmem with heq | hin
        · exact hxs heq.symm
        · exact h1 hin
      · intro hmem
        rcases startup_source_keys_mem x (env x) st s hmem with heq | hin
        · exact hxs heq.symm
        · exact h2 hin

theorem startup_fold_skip (env : String → SourceEnv) (s : String)
    (hfail : env s = SourceEnv.connectFail) (servers : List String) :
    ∀ st : GatewayState,
      servers.foldl (fun st x => startup_source x (env x) st) st
        = (servers.filter (fun x => x != s)).foldl (fun st x => startup_source x (env x) st) st := by
  induction servers with
  | nil => intro st; rfl
  | cons x rest ih =>
    intro st
    by_cases hxs : x = s
    · subst hxs
      have hne : (x != x) = false := by simp
      simp only [List.foldl_cons, List.filter_cons, hne, hfail]
      rw [show startup_source x SourceEnv.connectFail st = st from rfl]
      exact ih st
    · have hne : (x != s) = true := by simp [bne_iff_ne, hxs]
      simp only [List.foldl_cons, List.filter_cons, hne]
      exact ih (startup_source x (env x) st)

/-- C5: a source whose connection attempt fails at startup leaves no
client entry, no tools_cache entry and no root-listing entry, the
whole startup is equal to the startup run without that source (so the
process does not abort and every other source is unaffected); in the
single variant a failed connection leaves an empty cache and zero
endpoints. -/
theorem C5_connect_fail_soft (env : String → SourceEnv) (servers : List String) (s : String)
    (hfail : env s = SourceEnv.connectFail) :
    s ∉ (startup_event env servers).clients
    ∧ s ∉ keysOf (startup_event env servers).tools_cache
    ∧ s ∉ (rootListing (startup_event env servers)).map ServerListing.server
    ∧ startup_event env servers = startup_event env (servers.filter (fun x => x != s))
    ∧ (single_startup_event SourceEnv.connectFail).tools_cache = []
    ∧ (single_startup_event SourceEnv.connectFail).endpoints = [] := by
  have h := startup_fold_not_mem env s hfail servers emptyState (by simp [emptyState])
    (by simp [emptyState, keysOf])
  refine ⟨h.1, h.2, ?_, ?_, rfl, rfl⟩
  · rw [rootListing_servers]
    exact h.2
  · exact startup_fold_skip env s hfail servers emptyState

/-- A concrete well-formed tool named good. -/
def goodTool : RawTool :=
  { name := some "good"
    title := none
    description := none
    inputSchema := { properties := [], required := [] }
    outputSchema := none }

/-- A concrete malformed tool: its name is missing. -/
def badTool : RawTool :=
  { name := none
    title := none
    description := none
    inputSchema := { properties := [], required := [] }
    outputSchema := none }

/-- A concrete environment where source bad cannot connect and every
other source serves the good tool. -/
def envC5 : String → SourceEnv :=
  fun s => if s = "bad" then SourceEnv.connectFail else SourceEnv.tools [goodTool]

/-- Witness for C5 on the concrete two-source configuration. -/
theorem C5_connect_fail_soft_witness :
    "bad" ∉ (startup_event envC5 ["bad", "ok"]).clients
    ∧ "bad" ∉ keysOf (startup_event envC5 ["bad", "ok"]).tools_cache
    ∧ "bad" ∉ (rootListing (startup_event envC5 ["bad", "ok"])).map ServerListing.server
    ∧ startup_event envC5 ["bad", "ok"]
      = startup_event envC5 (["bad", "ok"].filter (fun x => x != "bad"))
    ∧ (single_startup_event SourceEnv.connectFail).tools_cache = []
    ∧ (single_startup_event SourceEnv.connectFail).endpoints = [] :=
  C5_connect_fail_soft envC5 ["bad", "ok"] "bad" rfl

/- C6: a malformed tool aborts its source's remaining registrations. -/

/-- A concrete environment whose source A returns the malformed tool
first and the good tool after it. -/
def envC6 : String → SourceEnv :=
  fun s => if s = "A" then SourceEnv.tools [badTool, goodTool] else SourceEnv.connectFail

/-- C6 counterexample: with a discovery response [badTool, goodTool]
the malformed first tool aborts the source loop: the good tool that
follows it is never bound nor cached, contradicting the claim that
every other tool in the same discovery response is still registered. -/
theorem C6_counterexample :
    "good" ∉ (startup_event envC6 ["A"]).endpoints
    ∧ keysOf (startup_event envC6 ["A"]).tools_cache = ["A"]
    ∧ ((startup_event envC6 ["A"]).tools_cache.lookup "A").getD [] = [] := by
  refine ⟨by decide, rfl, rfl⟩

theorem processToolsLoop_truncate (server : String) (pre post : List RawTool)
    (bad : RawTool) (hbad : bad.name = none) :
    ∀ st : GatewayState, (∀ t ∈ pre, (RawTool.name t).isSome = true) →
      processToolsLoop server (pre ++ bad :: post) st = processToolsLoop server pre st := by
  induction pre with
  | nil =>
    intro st _
    simp [processToolsLoop, hbad]
  | cons t rest ih =>
    intro st hpre
    have ht := hpre t (List.mem_cons_self _ _)
    obtain ⟨n, hn⟩ := Option.isSome_iff_exists.mp ht
    simp only [List.cons_append, processToolsLoop, hn]
    exact ih _ (fun u hu => hpre u (List.mem_cons_of_mem _ hu))

theorem processToolsLoop_registers (server : String) (pre : List RawTool) :
    ∀ st : GatewayState, (∀ t ∈ pre, (RawTool.name t).isSome = true) →
      ∀ t ∈ pre, ∀ n, t.name = some n →
        n ∈ (processToolsLoop server pre st).endpoints := by
  induction pre with
  | nil => intro st _ t ht; cases ht
  | cons u rest ih =>
    intro st hpre t ht n hn
    have hu := hpre u (List.mem_cons_self _ _)
    obtain ⟨m, hm⟩ := Option.isSome_iff_exists.mp hu
    rcases List.mem_cons.mp ht with heq | hmem
    · subst heq
      simp only [processToolsLoop, hn]
      apply processToolsLoop_endpoints_mono
      exact List.mem_append.mpr (Or.inr (List.mem_singleton.mpr rfl))
    · simp only [processToolsLoop, hm]
      exact ih _ (fun v hv => hpre v (List.mem_cons_of_mem _ hv)) t hmem n hn

/-- C6 amended: a discovery response containing a tool with no name
aborts the processing of its source at that tool: registration is
exactly as if the discovery response had been truncated just before
the malformed tool, so the tools before it stay registered and bound
while the malformed tool and every tool after it are skipped (the
source itself stays connected, and other sources are unaffected by
the per-source exception handling shown in C5). -/
theorem C6_malformed_truncates (server : String) (pre post : List RawTool)
    (bad : RawTool) (st : GatewayState)
    (hpre : ∀ t ∈ pre, (RawTool.name t).isSome = true) (hbad : bad.name = none) :
    startup_source server (SourceEnv.tools (pre ++ bad :: post)) st
      = startup_source server (SourceEnv.tools pre) st
    ∧ ∀ t ∈ pre, ∀ n, t.name = some n →
        n ∈ (startup_source server (SourceEnv.tools (pre ++ bad :: post)) st).endpoints := by
  have htr : startup_source server (SourceEnv.tools (pre ++ bad :: post)) st
      = startup_source server (SourceEnv.tools pre) st :=
    processToolsLoop_truncate server pre post bad hbad _ hpre
  refine ⟨htr, ?_⟩
  intro t ht n hn
  rw [htr]
  exact processToolsLoop_registers server pre _ hpre t ht n hn

/-- Witness for C6 amended: with the good tool before the malformed
one, processing equals processing of the good tool alone, which is
registered. -/
theorem C6_malformed_truncates_witness :
    startup_source "A" (SourceEnv.tools [goodTool, badTool]) emptyState
      = startup_source "A" (SourceEnv.tools [goodTool]) emptyState
    ∧ "good" ∈ (startup_source "A" (SourceEnv.tools [goodTool, badTool]) emptyState).endpoints := by
  have h := C6_malformed_truncates "A" [goodTool] [] badTool emptyState (by decide) rfl
  exact ⟨h.1, h.2 goodTool (List.mem_cons_self _ _) "good" rfl⟩

/-- Fold invariant behind C10: the startup step relation preserves
the inclusion of the tools_cache key set in the clients key set. -/
theorem startup_fold_inv (env : String → SourceEnv) (servers : List String) :
    ∀ st : GatewayState, (∀ x ∈ keysOf st.tools_cache, x ∈ st.clients) →
      ∀ x ∈ keysOf (servers.foldl (fun st x => startup_source x (env x) st) st).tools_cache,
        x ∈ (servers.foldl (fun st x => startup_source x (env x) st) st).clients := by
  induction servers with
  | nil => intro st hinv; exact hinv
  | cons y rest ih =>
    intro st hinv
    simp only [List.foldl_cons]
    apply ih
    intro x hx
    cases he : env y with
    | connectFail =>
      rw [he] at hx
      exact hinv x hx
    | listFail =>
      rw [he] at hx
      exact addClient_sub y st.clients x (hinv x hx)
    | tools ts =>
      rw [he] at hx
      rw [startup_source, processToolsLoop_clients]
      rcases processToolsLoop_keys y ts _ x hx with heq | hmem
      · subst heq
        exact addClient_self x st.clients
      · rcases setKey_keys_mem y [] st.tools_cache x hmem with heq | hmem2
        · subst heq
          exact addClient_self x st.clients
        · exact addClient_sub y st.clients x (hinv x hmem2)

/-- C10: in every state reachable by the multi-variant startup, every
source name that keys the tools cache (hence appears in the root
listing) also keys the live-connection registry, because the client
is registered before the source's cache entry is created; the
converse need not hold (a listFail source is in clients only). -/
theorem C10_cache_key_has_client (env : String → SourceEnv) (servers : List String)
    (s : String) (h : s ∈ keysOf (startup_event env servers).tools_cache) :
    s ∈ (startup_event env servers).clients :=
  startup_fold_inv env servers emptyState (by simp [emptyState, keysOf]) s h

/-- A concrete environment where every source serves the good tool. -/
def envC10 : String → SourceEnv := fun _ => SourceEnv.tools [goodTool]

/-- Witness for C10 on a concrete one-source startup. -/
theorem C10_cache_key_has_client_witness :
    "A" ∈ (startup_event envC10 ["A"]).clients :=
  C10_cache_key_has_client envC10 ["A"] "A" (by decide)
